import Mathlib

/-!
Verification of the VertexArbiter backend core: a shallow embedding of the
arbitrage decision engine, the profitability calculator, the per-kind TTL
cache with stale fallback, and the MARA API service validation logic,
together with theorems settling the specification claims.

Numbers are embedded as rationals (the TypeScript source computes with
IEEE doubles; all constants and claim scenarios are exactly representable
and away from comparison boundaries, so the rational embedding is faithful
for every property stated here).  Human-readable `reasoning` strings, which
only interpolate `toFixed` renderings of the numeric fields, are omitted
from the embedded records: no claim refers to them.
-/

namespace VertexArbiter

/-- The three possible arbitrage choices (`'mining' | 'computing' | 'mixed'`). -/
inductive Choice where
  | mining
  | computing
  | mixed
deriving DecidableEq, Repr

/-- `ArbitrageDecision` from `decisionEngine.ts` (reasoning text omitted, see module comment). -/
structure ArbitrageDecision where
  choice : Choice
  confidence : ℚ
deriving DecidableEq, Repr

/-- `DecisionEngine.determineArbitrageChoice` from
`src/packages/backend/src/ai/decisionEngine.ts` (lines 30-64), translated
field by field: per-kW profits guarded to 0 on zero power, profit
difference percentage guarded to 0 on non-positive total profit, and the
10% relative-advantage rule with the `min`/`max` confidence clamps. -/
def determineArbitrageChoice (miningProfit computingProfit miningPower computingPower : ℚ) :
    ArbitrageDecision :=
  let miningProfitPerKw := if miningPower > 0 then miningProfit / (miningPower / 1000) else 0
  let computingProfitPerKw :=
    if computingPower > 0 then computingProfit / (computingPower / 1000) else 0
  let totalProfit := miningProfit + computingProfit
  let profitDifference := |miningProfitPerKw - computingProfitPerKw|
  let profitDifferencePercent :=
    if totalProfit > 0 then profitDifference / (totalProfit / 2) * 100 else 0
  if miningProfitPerKw > computingProfitPerKw * (11 / 10) then
    ⟨Choice.mining, min 95 (50 + profitDifferencePercent)⟩
  else if computingProfitPerKw > miningProfitPerKw * (11 / 10) then
    ⟨Choice.computing, min 95 (50 + profitDifferencePercent)⟩
  else
    ⟨Choice.mixed, max 60 (100 - profitDifferencePercent)⟩

/-- The decision rule exactly as the specification words it (§4.3, steps 1-3),
written independently of the source translation so that claim C3 can compare
the two. -/
def determineArbitrageChoiceSpec (miningProfit computingProfit miningPower computingPower : ℚ) :
    ArbitrageDecision :=
  let miningPerKw := if miningPower > 0 then miningProfit / (miningPower / 1000) else 0
  let computingPerKw := if computingPower > 0 then computingProfit / (computingPower / 1000) else 0
  let totalProfit := miningProfit + computingProfit
  let diff := |miningPerKw - computingPerKw|
  let diffPct := if totalProfit > 0 then diff / (totalProfit / 2) * 100 else 0
  if miningPerKw > computingPerKw * (11 / 10) then
    ⟨Choice.mining, min 95 (50 + diffPct)⟩
  else if computingPerKw > miningPerKw * (11 / 10) then
    ⟨Choice.computing, min 95 (50 + diffPct)⟩
  else
    ⟨Choice.mixed, max 60 (100 - diffPct)⟩

/-! ### Data model (`src/packages/backend/src/types/maraApiTypes.ts`) -/

/-- One price point from `GET /prices` (`PriceData` entry in `maraApiTypes.ts`). -/
structure PriceDataPoint where
  energy_price : ℚ
  hash_price : ℚ
  token_price : ℚ
  timestamp : String
deriving DecidableEq, Repr

/-- A miner entry of `InventoryResponse.miners`. -/
structure MinerSpec where
  hashrate : ℚ
  power : ℚ
deriving DecidableEq, Repr

/-- A compute entry of `InventoryResponse.inference`. -/
structure ComputeSpec where
  tokens : ℚ
  power : ℚ
deriving DecidableEq, Repr

/-- `InventoryResponse.inference`. -/
structure InferenceInventory where
  asic : ComputeSpec
  gpu : ComputeSpec
deriving DecidableEq, Repr

/-- `InventoryResponse.miners`. -/
structure MinersInventory where
  air : MinerSpec
  hydro : MinerSpec
  immersion : MinerSpec
deriving DecidableEq, Repr

/-- `InventoryResponse` from `maraApiTypes.ts`. -/
structure InventoryResponse where
  inference : InferenceInventory
  miners : MinersInventory
deriving DecidableEq, Repr

/-- The per-machine-type maps `MachineStatus.power` and `MachineStatus.revenue`. -/
structure PerMachineMap where
  air_miners : ℚ
  asic_compute : ℚ
  gpu_compute : ℚ
  hydro_miners : ℚ
  immersion_miners : ℚ
deriving DecidableEq, Repr

/-- `MachineStatus` from `maraApiTypes.ts` (extends `MachineAllocation`):
unit counts, the per-type power and revenue maps, and the three totals. -/
structure MachineStatus where
  air_miners : ℕ
  asic_compute : ℕ
  gpu_compute : ℕ
  hydro_miners : ℕ
  immersion_miners : ℕ
  id : ℕ
  site_id : ℕ
  updated_at : String
  power : PerMachineMap
  revenue : PerMachineMap
  total_power_cost : ℚ
  total_power_used : ℚ
  total_revenue : ℚ
deriving DecidableEq, Repr

/-- The `siteInfo` argument of `calculateAnalysis` (`{ name, power }`). -/
structure SiteInfo where
  name : String
  power : ℚ
deriving DecidableEq, Repr

/-! ### ProfitabilityService (`src/packages/backend/src/services/profitabilityService.ts`) -/

/-- `MachineEfficiency` from `profitabilityService.ts`. -/
structure MachineEfficiency where
  roi : ℚ
  unitsAllocated : ℕ
  powerUsed : ℚ
  revenue : ℚ
deriving DecidableEq, Repr

/-- The five per-type efficiency slots of `ProfitabilityAnalysis.machineEfficiency`
(`null` in the source becomes `none`). -/
structure MachineEfficiencyMap where
  airMiners : Option MachineEfficiency
  hydroMiners : Option MachineEfficiency
  immersionMiners : Option MachineEfficiency
  gpuCompute : Option MachineEfficiency
  asicCompute : Option MachineEfficiency
deriving DecidableEq, Repr

/-- The mining / computing group block inside `ProfitabilityAnalysis.arbitrage`. -/
structure GroupMetrics where
  revenue : ℚ
  power : ℚ
  cost : ℚ
  profit : ℚ
  profitPerKw : ℚ
  efficiency : ℚ
deriving DecidableEq, Repr

/-- The `arbitrage` block of `ProfitabilityAnalysis` (reasoning text omitted). -/
structure ArbitrageBlock where
  currentChoice : Choice
  confidence : ℚ
  mining : GroupMetrics
  computing : GroupMetrics
deriving DecidableEq, Repr

/-- `ProfitabilityAnalysis` from `profitabilityService.ts`. -/
structure ProfitabilityAnalysis where
  netProfit : ℚ
  profitMargin : ℚ
  powerUtilization : ℚ
  revenuePerKw : ℚ
  costPerKw : ℚ
  profitPerKw : ℚ
  currentPrices : PriceDataPoint
  siteInfo : Option SiteInfo
  arbitrage : ArbitrageBlock
  machineEfficiency : MachineEfficiencyMap
deriving DecidableEq, Repr

/-- `ProfitabilityService.calculateROI` (lines 158-161): energy cost of the
power used, and percentage return over that cost, guarded to 0 at zero cost. -/
def calculateROI (powerUsed revenue energyPrice : ℚ) : ℚ :=
  let cost := (powerUsed / 1000) * energyPrice
  if cost > 0 then ((revenue - cost) / cost) * 100 else 0

/-- `ProfitabilityService.calculateAnalysis` (lines 58-153), translated
clause by clause: the basic profit metrics, the per-kW metrics guarded at
zero power, the mining/computing group split, the arbitrage decision via
`determineArbitrageChoice`, and the per-type efficiency records which are
`null` exactly for types with zero allocated units. -/
def calculateAnalysis (status : MachineStatus) (prices : PriceDataPoint)
    (siteConfig : Option SiteInfo) : ProfitabilityAnalysis :=
  let netProfit := status.total_revenue - status.total_power_cost
  let profitMargin := if status.total_revenue > 0 then (netProfit / status.total_revenue) * 100 else 0
  let powerUtilization :=
    match siteConfig with
    | some sc => (status.total_power_used / sc.power) * 100
    | none => 0
  let revenuePerKw :=
    if status.total_power_used > 0 then status.total_revenue / (status.total_power_used / 1000) else 0
  let costPerKw :=
    if status.total_power_used > 0 then
      status.total_power_cost / (status.total_power_used / 1000)
    else 0
  let profitPerKw :=
    if status.total_power_used > 0 then netProfit / (status.total_power_used / 1000) else 0
  let miningRevenue :=
    status.revenue.air_miners + status.revenue.hydro_miners + status.revenue.immersion_miners
  let miningPower :=
    status.power.air_miners + status.power.hydro_miners + status.power.immersion_miners
  let miningCost := (miningPower / 1000) * prices.energy_price
  let miningProfit := miningRevenue - miningCost
  let computingRevenue := status.revenue.gpu_compute + status.revenue.asic_compute
  let computingPower := status.power.gpu_compute + status.power.asic_compute
  let computingCost := (computingPower / 1000) * prices.energy_price
  let computingProfit := computingRevenue - computingCost
  let arbitrageDecision :=
    determineArbitrageChoice miningProfit computingProfit miningPower computingPower
  let machineEfficiency : MachineEfficiencyMap :=
    { airMiners :=
        if status.air_miners > 0 then
          some ⟨calculateROI status.power.air_miners status.revenue.air_miners prices.energy_price,
            status.air_miners, status.power.air_miners, status.revenue.air_miners⟩
        else none
      hydroMiners :=
        if status.hydro_miners > 0 then
          some ⟨calculateROI status.power.hydro_miners status.revenue.hydro_miners
              prices.energy_price,
            status.hydro_miners, status.power.hydro_miners, status.revenue.hydro_miners⟩
        else none
      immersionMiners :=
        if status.immersion_miners > 0 then
          some ⟨calculateROI status.power.immersion_miners status.revenue.immersion_miners
              prices.energy_price,
            status.immersion_miners, status.power.immersion_miners,
            status.revenue.immersion_miners⟩
        else none
      gpuCompute :=
        if status.gpu_compute > 0 then
          some ⟨calculateROI status.power.gpu_compute status.revenue.gpu_compute
              prices.energy_price,
            status.gpu_compute, status.power.gpu_compute, status.revenue.gpu_compute⟩
        else none
      asicCompute :=
        if status.asic_compute > 0 then
          some ⟨calculateROI status.power.asic_compute status.revenue.asic_compute
              prices.energy_price,
            status.asic_compute, status.power.asic_compute, status.revenue.asic_compute⟩
        else none }
  { netProfit := netProfit
    profitMargin := profitMargin
    powerUtilization := powerUtilization
    revenuePerKw := revenuePerKw
    costPerKw := costPerKw
    profitPerKw := profitPerKw
    currentPrices := prices
    siteInfo := siteConfig
    arbitrage :=
      { currentChoice := arbitrageDecision.choice
        confidence := arbitrageDecision.confidence
        mining :=
          { revenue := miningRevenue
            power := miningPower
            cost := miningCost
            profit := miningProfit
            profitPerKw := if miningPower > 0 then miningProfit / (miningPower / 1000) else 0
            efficiency := if miningPower > 0 then miningRevenue / (miningPower / 1000) else 0 }
        computing :=
          { revenue := computingRevenue
            power := computingPower
            cost := computingCost
            profit := computingProfit
            profitPerKw :=
              if computingPower > 0 then computingProfit / (computingPower / 1000) else 0
            efficiency :=
              if computingPower > 0 then computingRevenue / (computingPower / 1000) else 0 } }
    machineEfficiency := machineEfficiency }

/-! ### `DecisionEngine.rankMachinesByProfitability` (`decisionEngine.ts` lines 131-199) -/

/-- An element of the list returned by `rankMachinesByProfitability`. -/
structure RankedMachine where
  type : String
  roi : ℚ
  revenue : ℚ
  power : ℚ
  units : ℕ
deriving DecidableEq, Repr

/-- One `if (analysis.machineEfficiency.x) machines.push(...)` block of
`rankMachinesByProfitability`: a singleton for a non-null efficiency record,
nothing for a null one. -/
def effToRanked (label : String) (o : Option MachineEfficiency) : List RankedMachine :=
  match o with
  | some e => [⟨label, e.roi, e.revenue, e.powerUsed, e.unitsAllocated⟩]
  | none => []

/-- The descending-by-roi comparison used by `machines.sort((a, b) => b.roi - a.roi)`:
`a` may be placed before `b` when `a.roi ≥ b.roi` (ties keep the earlier
element first, matching the stable ECMAScript sort). -/
def roiGE (a b : RankedMachine) : Prop := b.roi ≤ a.roi

instance : DecidableRel roiGE := fun a b => inferInstanceAs (Decidable (b.roi ≤ a.roi))

instance : IsTotal RankedMachine roiGE := ⟨fun a b => (le_total b.roi a.roi).imp id id⟩

instance : IsTrans RankedMachine roiGE := ⟨fun _ _ _ hab hbc => le_trans hbc hab⟩

/-- `DecisionEngine.rankMachinesByProfitability`: collect the five
machine-type blocks in source order (air, hydro, immersion, gpu, asic),
keeping only non-null efficiency records, then sort descending by `roi`. -/
def rankMachinesByProfitability (analysis : ProfitabilityAnalysis) : List RankedMachine :=
  let machines :=
    effToRanked "Air Miners" analysis.machineEfficiency.airMiners ++
      effToRanked "Hydro Miners" analysis.machineEfficiency.hydroMiners ++
        effToRanked "Immersion Miners" analysis.machineEfficiency.immersionMiners ++
          effToRanked "GPU Compute" analysis.machineEfficiency.gpuCompute ++
            effToRanked "ASIC Compute" analysis.machineEfficiency.asicCompute
  machines.insertionSort roiGE

/-- The number of non-null records in a `machineEfficiency` map. -/
def countNonNull (m : MachineEfficiencyMap) : ℕ :=
  (if m.airMiners.isSome then 1 else 0) + (if m.hydroMiners.isSome then 1 else 0) +
    (if m.immersionMiners.isSome then 1 else 0) + (if m.gpuCompute.isSome then 1 else 0) +
      (if m.asicCompute.isSome then 1 else 0)

/-- The number of machine types of a status with `allocated_units > 0`. -/
def countActiveTypes (status : MachineStatus) : ℕ :=
  (if status.air_miners > 0 then 1 else 0) + (if status.hydro_miners > 0 then 1 else 0) +
    (if status.immersion_miners > 0 then 1 else 0) + (if status.gpu_compute > 0 then 1 else 0) +
      (if status.asic_compute > 0 then 1 else 0)

/-! ### SiteStateService: the per-kind TTL cache with stale fallback
(`siteStateService.ts`).

Each `get*` method is embedded as a state-passing function.  The upstream
call that the method *would* make is supplied as an `Except String` value
(`Except.error msg` models a rejected upstream promise with cause `msg`);
the returned `upstreamCalled` flag records whether the method actually
consumed it, i.e. whether an upstream call was issued. -/

namespace SiteStateService

/-- `CacheEntry<T>` from `siteStateService.ts`: data plus fetch timestamp
and TTL in milliseconds. -/
structure CacheEntry (T : Type) where
  data : T
  timestamp : Int
  ttl : Int
deriving DecidableEq, Repr

/-- The `SiteStateCache` record: three independent nullable slots. -/
structure SiteStateCache where
  inventory : Option (CacheEntry InventoryResponse)
  prices : Option (CacheEntry PriceDataPoint)
  machineStatus : Option (CacheEntry MachineStatus)
deriving DecidableEq, Repr

/-- `DEFAULT_TTL.inventory`: 30 minutes in milliseconds. -/
def DEFAULT_TTL_inventory : Int := 30 * 60 * 1000

/-- `DEFAULT_TTL.prices`: 5 minutes in milliseconds. -/
def DEFAULT_TTL_prices : Int := 5 * 60 * 1000

/-- `DEFAULT_TTL.machineStatus`: 2 minutes in milliseconds. -/
def DEFAULT_TTL_machineStatus : Int := 2 * 60 * 1000

/-- `isCacheValid`: a slot is valid iff it is non-null and
`now - entry.timestamp < entry.ttl`. -/
def isCacheValid {T : Type} (now : Int) : Option (CacheEntry T) → Bool
  | none => false
  | some e => decide (now - e.timestamp < e.ttl)

/-- `createCacheEntry`: fresh data stamped with the current time and the
given TTL. -/
def createCacheEntry {T : Type} (now : Int) (data : T) (ttl : Int) : CacheEntry T :=
  ⟨data, now, ttl⟩

/-- Outcome of one `get*` call: the returned-or-thrown value, the cache
state after the call, and whether an upstream call was issued. -/
structure GetOutcome (T : Type) where
  result : Except String T
  cache : SiteStateCache
  upstreamCalled : Bool
deriving Repr

/-- The body shared verbatim by `getInventory` / `getPrices` /
`getMachineStatus`, acting on one slot: serve a valid cached entry when not
forced; otherwise consume the upstream outcome — on success store a fresh
entry, on failure fall back to a (possibly expired) prior entry, else
rethrow the cause.  The slot is written only on a successful fetch. -/
def getSlotStep {T : Type} (forceRefresh : Bool) (now : Int) (ttl : Int)
    (upstream : Except String T) (slot : Option (CacheEntry T)) :
    Except String T × Option (CacheEntry T) × Bool :=
  match slot with
  | some e =>
      if !forceRefresh && decide (now - e.timestamp < e.ttl) then
        (Except.ok e.data, some e, false)
      else
        match upstream with
        | Except.ok v => (Except.ok v, some (createCacheEntry now v ttl), true)
        | Except.error _ => (Except.ok e.data, some e, true)
  | none =>
      match upstream with
      | Except.ok v => (Except.ok v, some (createCacheEntry now v ttl), true)
      | Except.error msg => (Except.error msg, none, true)

/-- `SiteStateService.getInventory` (lines 81-103). -/
def getInventory (forceRefresh : Bool) (now : Int) (upstream : Except String InventoryResponse)
    (c : SiteStateCache) : GetOutcome InventoryResponse :=
  let r := getSlotStep forceRefresh now DEFAULT_TTL_inventory upstream c.inventory
  ⟨r.1, { c with inventory := r.2.1 }, r.2.2⟩

/-- `SiteStateService.getPrices` (lines 108-130). -/
def getPrices (forceRefresh : Bool) (now : Int) (upstream : Except String PriceDataPoint)
    (c : SiteStateCache) : GetOutcome PriceDataPoint :=
  let r := getSlotStep forceRefresh now DEFAULT_TTL_prices upstream c.prices
  ⟨r.1, { c with prices := r.2.1 }, r.2.2⟩

/-- `SiteStateService.getMachineStatus` (lines 135-157). -/
def getMachineStatus (forceRefresh : Bool) (now : Int) (upstream : Except String MachineStatus)
    (c : SiteStateCache) : GetOutcome MachineStatus :=
  let r := getSlotStep forceRefresh now DEFAULT_TTL_machineStatus upstream c.machineStatus
  ⟨r.1, { c with machineStatus := r.2.1 }, r.2.2⟩

/-- The three upstream outcomes available to one periodic-refresh tick. -/
structure TickUpstream where
  prices : Except String PriceDataPoint
  machineStatus : Except String MachineStatus
  inventory : Except String InventoryResponse
deriving Repr

/-- Result of one tick of `startPeriodicRefresh`: the cache afterwards,
which kinds issued an upstream refresh, and the error causes that the
tick's `catch` block caught and logged. -/
structure TickResult where
  cache : SiteStateCache
  calledPrices : Bool
  calledMachineStatus : Bool
  calledInventory : Bool
  caughtErrors : List String
deriving Repr

/-- The errors a `get*` outcome contributes to the tick's `catch` block. -/
def caughtOf {T : Type} (r : Except String T) : List String :=
  match r with
  | Except.error m => [m]
  | Except.ok _ => []

/-- One tick of `SiteStateService.startPeriodicRefresh` (lines 248-281):
in source order (prices, machineStatus, inventory) refresh — with
`forceRefresh = true` — exactly the slots whose entry is currently
invalid; any rejection is caught by the tick's `catch` and recorded, never
propagated, so the periodic task keeps ticking. -/
def refreshTick (now : Int) (u : TickUpstream) (c : SiteStateCache) : TickResult :=
  let needP := !isCacheValid now c.prices
  let gP := getPrices true now u.prices c
  let c1 := if needP then gP.cache else c
  let e1 := if needP then caughtOf gP.result else []
  let needM := !isCacheValid now c1.machineStatus
  let gM := getMachineStatus true now u.machineStatus c1
  let c2 := if needM then gM.cache else c1
  let e2 := if needM then caughtOf gM.result else []
  let needI := !isCacheValid now c2.inventory
  let gI := getInventory true now u.inventory c2
  let c3 := if needI then gI.cache else c2
  let e3 := if needI then caughtOf gI.result else []
  ⟨c3, needP, needM, needI, e1 ++ e2 ++ e3⟩

/-- The periodic task as the sequence of its ticks: every scheduled tick
runs (a failing tick only records its caught errors), threading the cache. -/
def startPeriodicRefresh (ticks : List (Int × TickUpstream)) (c : SiteStateCache) :
    SiteStateCache × List (List String) :=
  match ticks with
  | [] => (c, [])
  | (now, u) :: rest =>
      let t := refreshTick now u c
      let r := startPeriodicRefresh rest t.cache
      (r.1, t.caughtErrors :: r.2)

end SiteStateService

/-! ### String helpers

`String.endsWith` / `message.includes` from the source are re-implemented
over character lists so that every use is kernel-evaluable. -/

/-- Whether a string ends with the given character (JS `ts.endsWith('Z')`). -/
def strEndsWith (s : String) (c : Char) : Bool :=
  match s.toList.getLast? with
  | some last => last == c
  | none => false

/-- Boolean list-prefix test. -/
def isPrefixOfB : List Char → List Char → Bool
  | [], _ => true
  | _ :: _, [] => false
  | a :: as, b :: bs => a == b && isPrefixOfB as bs

/-- Boolean contiguous-sublist test. -/
def containsSub (pat : List Char) : List Char → Bool
  | [] => isPrefixOfB pat []
  | c :: cs => isPrefixOfB pat (c :: cs) || containsSub pat cs

/-- JS `s.includes(pat)`: `pat` occurs contiguously in `s`. -/
def strContains (s pat : String) : Bool := containsSub pat.toList s.toList

/-! ### MaraApiService (`maraApiService.ts`)

The HTTP transport is an external collaborator: each embedded method takes
the outcome its upstream request *would* produce.  JavaScript `Date`
parsing / `toISOString` rendering is runtime-library behaviour outside the
repository; it is abstracted as an arbitrary `dateToISO : String → String`
parameter, applied after the source's own Z-suffix normalization. -/

namespace MaraApiService

/-- `SiteConfig` from `maraApiTypes.ts`. -/
structure SiteConfig where
  api_key : String
  name : String
  power : ℚ
  created_at : String
deriving DecidableEq, Repr

/-- `AllocateMachinesRequest`: every count optional. -/
structure AllocateMachinesRequest where
  air_miners : Option ℕ
  hydro_miners : Option ℕ
  immersion_miners : Option ℕ
  gpu_compute : Option ℕ
  asic_compute : Option ℕ
deriving DecidableEq, Repr

/-- `MachineAllocation` from `maraApiTypes.ts`. -/
structure MachineAllocation where
  air_miners : ℕ
  asic_compute : ℕ
  gpu_compute : ℕ
  hydro_miners : ℕ
  immersion_miners : ℕ
  id : ℕ
  site_id : ℕ
  updated_at : String
deriving DecidableEq, Repr

/-- `parseUTCTimestamp` (lines 114-117): append a `Z` suffix when missing,
then hand to `Date` parsing / ISO rendering (the `dateToISO` abstraction). -/
def parseUTCTimestamp (dateToISO : String → String) (ts : String) : String :=
  dateToISO (if strEndsWith ts 'Z' then ts else ts ++ "Z")

/-- `normalizePriceDataPoint` (lines 122-127). -/
def normalizePriceDataPoint (dateToISO : String → String) (p : PriceDataPoint) :
    PriceDataPoint :=
  { p with timestamp := parseUTCTimestamp dateToISO p.timestamp }

/-- `MaraApiService.getPrices` (lines 196-219): fail fast without a site
config; wrap a transport failure; reject an empty or missing price array
with `No price data available from API`; otherwise return the FIRST
element of the array, timestamp normalized.  `response` is the upstream
`GET /prices` outcome (`none` models a null/undefined body). -/
def getPrices (hasConfig : Bool) (dateToISO : String → String)
    (response : Except String (Option (List PriceDataPoint))) : Except String PriceDataPoint :=
  if !hasConfig then
    Except.error
      ("Get prices failed: " ++ "No site configuration found. Please create a site first.")
  else
    match response with
    | Except.error m => Except.error ("Get prices failed: " ++ m)
    | Except.ok none => Except.error ("Get prices failed: " ++ "No price data available from API")
    | Except.ok (some []) =>
        Except.error ("Get prices failed: " ++ "No price data available from API")
    | Except.ok (some (p :: _)) => Except.ok (normalizePriceDataPoint dateToISO p)

/-- The total projected power draw of a proposed allocation (the
`totalPower` accumulation of `validateMachineAllocation`, lines 337-353).
A zero count contributes zero either way, so the JS truthiness guard
`if (allocation.x)` coincides with matching on presence. -/
def allocTotalPower (alloc : AllocateMachinesRequest) (inventory : InventoryResponse) : ℚ :=
  (match alloc.air_miners with | some n => (n : ℚ) * inventory.miners.air.power | none => 0) +
    (match alloc.hydro_miners with
      | some n => (n : ℚ) * inventory.miners.hydro.power | none => 0) +
    (match alloc.immersion_miners with
      | some n => (n : ℚ) * inventory.miners.immersion.power | none => 0) +
    (match alloc.gpu_compute with
      | some n => (n : ℚ) * inventory.inference.gpu.power | none => 0) +
    (match alloc.asic_compute with
      | some n => (n : ℚ) * inventory.inference.asic.power | none => 0)

/-- What the `try` block of `validateMachineAllocation` can throw. -/
inductive ValidationError where
  /-- `this.getInventory()` rejected; carries that wrapped error's message. -/
  | fromInventory (message : String)
  /-- `Site configuration not found`. -/
  | siteConfigMissing
  /-- `Power allocation (totalW) exceeds site limit (limitW). Reduce
  allocation by overageW.` — carries the projected total, the limit, and
  the overage in watts. -/
  | powerExceeded (total limit overage : ℚ)
deriving DecidableEq, Repr

/-- The `catch` filter `error.message.includes('Power allocation')`:
true exactly for the messages that mention a power-allocation violation. -/
def mentionsPowerAllocation : ValidationError → Bool
  | ValidationError.fromInventory msg => strContains msg "Power allocation"
  | ValidationError.siteConfigMissing => false
  | ValidationError.powerExceeded _ _ _ => true

/-- The `try` block of `validateMachineAllocation` (lines 326-363):
fetch the inventory, read the site config, and reject with the overage
when the projected draw exceeds the site power limit.
`inventoryResult` is the outcome of `this.getInventory()` (its error is
already the `Get inventory failed: ...`-wrapped message); `siteConfig` is
the config read at validation time. -/
def validateTry (inventoryResult : Except String InventoryResponse)
    (siteConfig : Option SiteConfig) (alloc : AllocateMachinesRequest) :
    Except ValidationError Unit :=
  match inventoryResult with
  | Except.error msg => Except.error (ValidationError.fromInventory msg)
  | Except.ok inventory =>
      match siteConfig with
      | none => Except.error ValidationError.siteConfigMissing
      | some sc =>
          let totalPower := allocTotalPower alloc inventory
          if totalPower > sc.power then
            Except.error
              (ValidationError.powerExceeded totalPower sc.power (totalPower - sc.power))
          else Except.ok ()

/-- `validateMachineAllocation` (lines 326-372) including its `catch`:
re-throw (`some e`) only errors whose message includes `Power allocation`;
everything else is logged as a warning and swallowed (`none`), letting the
request proceed. -/
def validateMachineAllocation (inventoryResult : Except String InventoryResponse)
    (siteConfig : Option SiteConfig) (alloc : AllocateMachinesRequest) :
    Option ValidationError :=
  match validateTry inventoryResult siteConfig alloc with
  | Except.ok _ => none
  | Except.error e => if mentionsPowerAllocation e then some e else none

/-- Outcome of `updateMachineAllocation`; the source's outer `catch` wraps
each failure as `Update machine allocation failed: ...` and rethrows. -/
inductive UpdateOutcome where
  /-- `hasSiteConfig()` was false at entry: fail before validating. -/
  | noConfig
  /-- Validation aborted the request: the PUT was never issued. -/
  | rejected (e : ValidationError)
  /-- The PUT was issued; its outcome (success normalized) is returned. -/
  | putResult (r : Except String MachineAllocation)
deriving Repr

/-- What `updateMachineAllocation` makes of the upstream PUT outcome once
the PUT has been issued: a success has its `updated_at` normalized
(lines 285-287); a rejection is wrapped by the outer `catch` (line 293). -/
def putOutcome (dateToISO : String → String) (putResponse : Except String MachineAllocation) :
    Except String MachineAllocation :=
  match putResponse with
  | Except.ok r => Except.ok { r with updated_at := parseUTCTimestamp dateToISO r.updated_at }
  | Except.error m => Except.error ("Update machine allocation failed: " ++ m)

/-- `MaraApiService.updateMachineAllocation` (lines 271-295).  `hasConfig`
is the `hasSiteConfig()` read at entry; `siteConfig` the config read
during validation (the source reads the config manager twice);
`putResponse` is the outcome the upstream `PUT /machines` would produce.
The second component records whether that PUT was actually issued. -/
def updateMachineAllocation (hasConfig : Bool) (dateToISO : String → String)
    (inventoryResult : Except String InventoryResponse) (siteConfig : Option SiteConfig)
    (alloc : AllocateMachinesRequest) (putResponse : Except String MachineAllocation) :
    UpdateOutcome × Bool :=
  if !hasConfig then
    (UpdateOutcome.noConfig, false)
  else
    match validateMachineAllocation inventoryResult siteConfig alloc with
    | some e => (UpdateOutcome.rejected e, false)
    | none => (UpdateOutcome.putResult (putOutcome dateToISO putResponse), true)

end MaraApiService

/-! ### Proof-side abbreviations and concrete sample data -/

/-- Profit per kW with the zero-power guard (the common subterm of
`determineArbitrageChoice`), named so case analyses stay readable. -/
def perKw (profit power : ℚ) : ℚ :=
  if power > 0 then profit / (power / 1000) else 0

/-- The profit-difference percentage of `determineArbitrageChoice`, named
for the same reason. -/
def diffPct (mp cp mw cw : ℚ) : ℚ :=
  if mp + cp > 0 then |perKw mp mw - perKw cp cw| / ((mp + cp) / 2) * 100 else 0

/-- The inventory used by the backend test-suite mocks. -/
def sampleInventory : InventoryResponse :=
  { inference := { asic := ⟨800, 10000⟩, gpu := ⟨1000, 3333⟩ }
    miners := { air := ⟨100, 3333⟩, hydro := ⟨120, 5000⟩, immersion := ⟨140, 10000⟩ } }

/-- The price point used by the backend test-suite mocks. -/
def samplePrice : PriceDataPoint :=
  { energy_price := 12 / 100
    hash_price := 45 / 100000000
    token_price := 32 / 1000000
    timestamp := "2025-01-21T14:00:00" }

/-- A machine status with the totals of the spec's §8 scenarios
(`revenue = 2500.50`, `cost = 1200.75`, `power_used = 813315`) and the
test-suite per-type figures. -/
def sampleMachineStatus : MachineStatus :=
  { air_miners := 30
    asic_compute := 8
    gpu_compute := 25
    hydro_miners := 80
    immersion_miners := 15
    id := 1
    site_id := 1
    updated_at := "2025-01-21T14:00:00"
    power := ⟨99990, 80000, 83325, 400000, 150000⟩
    revenue := ⟨450.25, 199, 300, 1200.50, 350.75⟩
    total_power_cost := 1200.75
    total_power_used := 813315
    total_revenue := 2500.50 }

/-- The `{ name, power }` site info of the test-suite mocks (1 MW site). -/
def sampleSite : SiteInfo := ⟨"Test Site", 1000000⟩

/-- A cache holding an inventory entry and a machine-status entry fetched
at time 0, with the prices slot empty. -/
def sampleCache : SiteStateService.SiteStateCache :=
  { inventory := some ⟨sampleInventory, 0, SiteStateService.DEFAULT_TTL_inventory⟩
    prices := none
    machineStatus := some ⟨sampleMachineStatus, 0, SiteStateService.DEFAULT_TTL_machineStatus⟩ }

/-- All-successful upstream outcomes for one refresh tick. -/
def sampleTickUpstream : SiteStateService.TickUpstream :=
  ⟨Except.ok samplePrice, Except.ok sampleMachineStatus, Except.ok sampleInventory⟩

/-- A site configuration with a 1 MW power limit. -/
def sampleSiteConfig : MaraApiService.SiteConfig :=
  ⟨"sample-key", "Test Site", 1000000, "2025-01-21T00:00:00Z"⟩

/-- An allocation of 400 air miners (projected draw 1,333,200 W at the
sample inventory's 3,333 W per air miner: over the 1 MW sample limit). -/
def sampleAllocOver : MaraApiService.AllocateMachinesRequest :=
  { air_miners := some 400
    hydro_miners := none
    immersion_miners := none
    gpu_compute := none
    asic_compute := none }

/-- A machine allocation as the upstream PUT would return it. -/
def sampleAllocation : MaraApiService.MachineAllocation :=
  ⟨30, 8, 25, 80, 15, 1, 1, "2025-01-21T14:00:00"⟩

/-! ## Theorems -/

/-- `determineArbitrageChoice` written with the named subterms `perKw` and
`diffPct`; definitionally equal to the source translation. -/
theorem determineArbitrageChoice_eq (mp cp mw cw : ℚ) :
    determineArbitrageChoice mp cp mw cw =
      if perKw mp mw > perKw cp cw * (11 / 10) then
        ⟨Choice.mining, min 95 (50 + diffPct mp cp mw cw)⟩
      else if perKw cp cw > perKw mp mw * (11 / 10) then
        ⟨Choice.computing, min 95 (50 + diffPct mp cp mw cw)⟩
      else ⟨Choice.mixed, max 60 (100 - diffPct mp cp mw cw)⟩ := rfl

/-- The profit-difference percentage is never negative. -/
theorem diffPct_nonneg (mp cp mw cw : ℚ) : 0 ≤ diffPct mp cp mw cw := by
  unfold diffPct
  split_ifs with h
  · have h2 : 0 < (mp + cp) / 2 := by linarith
    exact mul_nonneg (div_nonneg (abs_nonneg _) h2.le) (by norm_num)
  · exact le_refl 0

/-- The spec's §8 mining scenario, evaluated. -/
theorem arb_mining_scenario :
    (determineArbitrageChoice 1000 500 500000 300000).choice = Choice.mining := by
  have h : perKw (1000 : ℚ) 500000 > perKw 500 300000 * (11 / 10) := by
    unfold perKw
    rw [if_pos (by norm_num : (500000 : ℚ) > 0), if_pos (by norm_num : (300000 : ℚ) > 0)]
    norm_num
  rw [determineArbitrageChoice_eq, if_pos h]

/-- The spec's §8 zero-degeneracy scenario, evaluated. -/
theorem arb_zero_scenario : determineArbitrageChoice 0 0 0 0 = ⟨Choice.mixed, 100⟩ := by
  rw [determineArbitrageChoice_eq]
  unfold perKw diffPct
  norm_num

/-- Claim C3: `determineArbitrageChoice` follows the 10% relative-advantage
decision rule exactly — it coincides with the rule as the specification
words it (`determineArbitrageChoiceSpec`) on all inputs — and on inputs
`(1000, 500, 500000, 300000)` the choice is `mining`. -/
theorem claim_C3 :
    (∀ miningProfit computingProfit miningPower computingPower : ℚ,
      determineArbitrageChoice miningProfit computingProfit miningPower computingPower =
        determineArbitrageChoiceSpec miningProfit computingProfit miningPower computingPower) ∧
    (determineArbitrageChoice 1000 500 500000 300000).choice = Choice.mining :=
  ⟨fun _ _ _ _ => rfl, arb_mining_scenario⟩

/-- Claim C4: `determineArbitrageChoice` is total (defined on all rational
inputs, including the all-zero input, which yields `mixed`), its confidence
is in `(0, 100]`, directional choices have confidence in `[50, 95]`, and
`mixed` has confidence in `[60, 100]`.  Determinism is immediate: the
embedding is a pure function. -/
theorem claim_C4 (mp cp mw cw : ℚ) :
    (0 < (determineArbitrageChoice mp cp mw cw).confidence ∧
      (determineArbitrageChoice mp cp mw cw).confidence ≤ 100) ∧
    (((determineArbitrageChoice mp cp mw cw).choice = Choice.mining ∨
        (determineArbitrageChoice mp cp mw cw).choice = Choice.computing) →
      50 ≤ (determineArbitrageChoice mp cp mw cw).confidence ∧
        (determineArbitrageChoice mp cp mw cw).confidence ≤ 95) ∧
    ((determineArbitrageChoice mp cp mw cw).choice = Choice.mixed →
      60 ≤ (determineArbitrageChoice mp cp mw cw).confidence ∧
        (determineArbitrageChoice mp cp mw cw).confidence ≤ 100) ∧
    (determineArbitrageChoice 0 0 0 0).choice = Choice.mixed := by
  have hdp := diffPct_nonneg mp cp mw cw
  have hzero : (determineArbitrageChoice 0 0 0 0).choice = Choice.mixed := by
    rw [arb_zero_scenario]
  rw [determineArbitrageChoice_eq]
  split_ifs with h1 h2
  · refine ⟨⟨lt_min (by norm_num) (by linarith), (min_le_left _ _).trans (by norm_num)⟩,
      fun _ => ⟨le_min (by norm_num) (by linarith), min_le_left _ _⟩, fun hmix => ?_, hzero⟩
    simp at hmix
  · refine ⟨⟨lt_min (by norm_num) (by linarith), (min_le_left _ _).trans (by norm_num)⟩,
      fun _ => ⟨le_min (by norm_num) (by linarith), min_le_left _ _⟩, fun hmix => ?_, hzero⟩
    simp at hmix
  · refine ⟨⟨lt_of_lt_of_le (by norm_num) (le_max_left _ _), max_le (by norm_num) (by linarith)⟩,
      fun hdir => ?_, fun _ => ⟨le_max_left _ _, max_le (by norm_num) (by linarith)⟩, hzero⟩
    rcases hdir with h | h <;> simp at h

/-- Witness for C4: the directional bound at the mining scenario and the
mixed bound at the all-zero input. -/
theorem claim_C4_witness :
    (50 ≤ (determineArbitrageChoice 1000 500 500000 300000).confidence ∧
      (determineArbitrageChoice 1000 500 500000 300000).confidence ≤ 95) ∧
    (60 ≤ (determineArbitrageChoice 0 0 0 0).confidence ∧
      (determineArbitrageChoice 0 0 0 0).confidence ≤ 100) :=
  ⟨(claim_C4 1000 500 500000 300000).2.1 (Or.inl arb_mining_scenario),
    (claim_C4 0 0 0 0).2.2.1 (by rw [arb_zero_scenario])⟩

/-- Claim C5: `calculateAnalysis` computes `netProfit`, `profitMargin`
(guarded to 0 at zero revenue) and `powerUtilization` (0 without a site
config) by the stated formulas, and on the spec's §8 scenario data
(`revenue = 2500.50`, `cost = 1200.75`, `power_used = 813315`, site power
`1000000`) yields `netProfit = 1299.75`, `profitMargin ≈ 51.98` and
`powerUtilization ≈ 81.33`. -/
theorem claim_C5 :
    (∀ (status : MachineStatus) (prices : PriceDataPoint) (siteConfig : Option SiteInfo),
      (calculateAnalysis status prices siteConfig).netProfit =
          status.total_revenue - status.total_power_cost ∧
      (calculateAnalysis status prices siteConfig).profitMargin =
          (if status.total_revenue > 0 then
            (status.total_revenue - status.total_power_cost) / status.total_revenue * 100
          else 0) ∧
      (calculateAnalysis status prices siteConfig).powerUtilization =
          (match siteConfig with
          | some sc => status.total_power_used / sc.power * 100
          | none => 0)) ∧
    (calculateAnalysis sampleMachineStatus samplePrice (some sampleSite)).netProfit = 1299.75 ∧
    (51.97 < (calculateAnalysis sampleMachineStatus samplePrice (some sampleSite)).profitMargin ∧
      (calculateAnalysis sampleMachineStatus samplePrice (some sampleSite)).profitMargin <
        51.99) ∧
    (81.33 ≤
        (calculateAnalysis sampleMachineStatus samplePrice (some sampleSite)).powerUtilization ∧
      (calculateAnalysis sampleMachineStatus samplePrice (some sampleSite)).powerUtilization <
        81.34) := by
  have base : ∀ (status : MachineStatus) (prices : PriceDataPoint) (siteConfig : Option SiteInfo),
      (calculateAnalysis status prices siteConfig).netProfit =
          status.total_revenue - status.total_power_cost ∧
      (calculateAnalysis status prices siteConfig).profitMargin =
          (if status.total_revenue > 0 then
            (status.total_revenue - status.total_power_cost) / status.total_revenue * 100
          else 0) ∧
      (calculateAnalysis status prices siteConfig).powerUtilization =
          (match siteConfig with
          | some sc => status.total_power_used / sc.power * 100
          | none => 0) :=
    fun _ _ _ => ⟨rfl, rfl, rfl⟩
  obtain ⟨hnet, hmargin, hutil⟩ := base sampleMachineStatus samplePrice (some sampleSite)
  refine ⟨base, ?_, ?_, ?_⟩
  · rw [hnet]
    show (2500.50 : ℚ) - 1200.75 = 1299.75
    norm_num
  · rw [hmargin]
    show 51.97 < (if (2500.50 : ℚ) > 0 then ((2500.50 : ℚ) - 1200.75) / 2500.50 * 100 else 0) ∧
      (if (2500.50 : ℚ) > 0 then ((2500.50 : ℚ) - 1200.75) / 2500.50 * 100 else 0) < 51.99
    rw [if_pos (by norm_num : (2500.50 : ℚ) > 0)]
    constructor <;> norm_num
  · rw [hutil]
    show (81.33 : ℚ) ≤ (813315 : ℚ) / 1000000 * 100 ∧ (813315 : ℚ) / 1000000 * 100 < 81.34
    constructor <;> norm_num

/-- The length contributed by one machine-type block. -/
theorem length_effToRanked (label : String) (o : Option MachineEfficiency) :
    (effToRanked label o).length = if o.isSome then 1 else 0 := by
  cases o <;> rfl

/-- The type labels contributed by one machine-type block. -/
theorem mem_type_effToRanked (x label : String) (o : Option MachineEfficiency) :
    x ∈ (effToRanked label o).map RankedMachine.type ↔ (x = label ∧ o.isSome = true) := by
  cases o <;> simp [effToRanked]

/-- The ranked list's length is the number of non-null efficiency records. -/
theorem length_rankMachines (a : ProfitabilityAnalysis) :
    (rankMachinesByProfitability a).length = countNonNull a.machineEfficiency := by
  unfold rankMachinesByProfitability countNonNull
  rw [List.length_insertionSort]
  simp only [List.length_append, length_effToRanked]

/-- A zero-allocation guard contributes 0 to the record count, an active
one contributes 1. -/
theorem count_ite_isSome {α : Type} (c : Prop) [Decidable c] (x : α) :
    (if (if c then some x else none : Option α).isSome = true then 1 else 0) =
      if c then (1 : ℕ) else 0 := by
  by_cases hc : c
  · simp [hc]
  · simp [hc]

/-- Claim C6: `rankMachinesByProfitability` is sorted non-increasingly by
`roi`; it contains exactly the machine types whose efficiency record is
non-null; and for an analysis produced by `calculateAnalysis` its length is
the number of machine types with `allocated_units > 0`. -/
theorem claim_C6 (analysis : ProfitabilityAnalysis) (status : MachineStatus)
    (prices : PriceDataPoint) (siteConfig : Option SiteInfo) :
    List.Pairwise (fun a b : RankedMachine => b.roi ≤ a.roi)
        (rankMachinesByProfitability analysis) ∧
    (rankMachinesByProfitability analysis).length = countNonNull analysis.machineEfficiency ∧
    (∀ x : String,
      x ∈ (rankMachinesByProfitability analysis).map RankedMachine.type ↔
        ((x = "Air Miners" ∧ analysis.machineEfficiency.airMiners.isSome = true) ∨
          (x = "Hydro Miners" ∧ analysis.machineEfficiency.hydroMiners.isSome = true) ∨
          (x = "Immersion Miners" ∧ analysis.machineEfficiency.immersionMiners.isSome = true) ∨
          (x = "GPU Compute" ∧ analysis.machineEfficiency.gpuCompute.isSome = true) ∨
          (x = "ASIC Compute" ∧ analysis.machineEfficiency.asicCompute.isSome = true))) ∧
    (rankMachinesByProfitability (calculateAnalysis status prices siteConfig)).length =
      countActiveTypes status := by
  refine ⟨List.sorted_insertionSort roiGE _, length_rankMachines analysis, ?_, ?_⟩
  · intro x
    unfold rankMachinesByProfitability
    rw [((List.perm_insertionSort roiGE _).map RankedMachine.type).mem_iff]
    simp only [List.map_append, List.mem_append, mem_type_effToRanked]
    tauto
  · rw [length_rankMachines]
    have h1 : (calculateAnalysis status prices siteConfig).machineEfficiency.airMiners =
        (if status.air_miners > 0 then
          some ⟨calculateROI status.power.air_miners status.revenue.air_miners
              prices.energy_price,
            status.air_miners, status.power.air_miners, status.revenue.air_miners⟩
        else none) := rfl
    have h2 : (calculateAnalysis status prices siteConfig).machineEfficiency.hydroMiners =
        (if status.hydro_miners > 0 then
          some ⟨calculateROI status.power.hydro_miners status.revenue.hydro_miners
              prices.energy_price,
            status.hydro_miners, status.power.hydro_miners, status.revenue.hydro_miners⟩
        else none) := rfl
    have h3 : (calculateAnalysis status prices siteConfig).machineEfficiency.immersionMiners =
        (if status.immersion_miners > 0 then
          some ⟨calculateROI status.power.immersion_miners status.revenue.immersion_miners
              prices.energy_price,
            status.immersion_miners, status.power.immersion_miners,
            status.revenue.immersion_miners⟩
        else none) := rfl
    have h4 : (calculateAnalysis status prices siteConfig).machineEfficiency.gpuCompute =
        (if status.gpu_compute > 0 then
          some ⟨calculateROI status.power.gpu_compute status.revenue.gpu_compute
              prices.energy_price,
            status.gpu_compute, status.power.gpu_compute, status.revenue.gpu_compute⟩
        else none) := rfl
    have h5 : (calculateAnalysis status prices siteConfig).machineEfficiency.asicCompute =
        (if status.asic_compute > 0 then
          some ⟨calculateROI status.power.asic_compute status.revenue.asic_compute
              prices.energy_price,
            status.asic_compute, status.power.asic_compute, status.revenue.asic_compute⟩
        else none) := rfl
    unfold countNonNull countActiveTypes
    rw [h1, h2, h3, h4, h5, count_ite_isSome, count_ite_isSome, count_ite_isSome,
      count_ite_isSome, count_ite_isSome]

namespace SiteStateService

/-- On upstream failure with a prior entry, a slot step serves that entry's
data and leaves the slot unchanged. -/
theorem getSlotStep_err_some {T : Type} (f : Bool) (now ttl : Int) (msg : String)
    (e : CacheEntry T) :
    (getSlotStep f now ttl (Except.error msg) (some e)).1 = Except.ok e.data ∧
    (getSlotStep f now ttl (Except.error msg) (some e)).2.1 = some e := by
  unfold getSlotStep
  dsimp only
  split_ifs with h <;> exact ⟨rfl, rfl⟩

/-- On upstream failure with no prior entry, a slot step propagates the
cause and leaves the slot empty. -/
theorem getSlotStep_err_none {T : Type} (f : Bool) (now ttl : Int) (msg : String) :
    getSlotStep f now ttl (Except.error msg) (none : Option (CacheEntry T)) =
      (Except.error msg, none, true) := rfl

/-- An unforced read of a valid entry serves it without touching upstream. -/
theorem getSlotStep_valid {T : Type} (now ttl : Int) (u : Except String T) (e : CacheEntry T)
    (h : now - e.timestamp < e.ttl) :
    getSlotStep false now ttl u (some e) = (Except.ok e.data, some e, false) := by
  unfold getSlotStep
  simp [h]

/-- A forced-or-expired read consuming a successful upstream outcome stores
a fresh entry stamped `now` with the given TTL. -/
theorem getSlotStep_refresh_ok {T : Type} (f : Bool) (now ttl : Int) (v : T)
    (slot : Option (CacheEntry T)) (h : f = true ∨ isCacheValid now slot = false) :
    getSlotStep f now ttl (Except.ok v) slot =
      (Except.ok v, some (createCacheEntry now v ttl), true) := by
  cases slot with
  | none => rfl
  | some e =>
      unfold getSlotStep
      rcases h with h | h
      · simp [h]
      · simp only [isCacheValid] at h
        simp [h]

/-- `getInventory` unfolded on its `result` projection. -/
theorem getInventory_result (f : Bool) (now : Int) (u : Except String InventoryResponse)
    (c : SiteStateCache) :
    (getInventory f now u c).result = (getSlotStep f now DEFAULT_TTL_inventory u c.inventory).1 :=
  rfl

/-- `getInventory` unfolded on its `cache` projection. -/
theorem getInventory_cache (f : Bool) (now : Int) (u : Except String InventoryResponse)
    (c : SiteStateCache) :
    (getInventory f now u c).cache =
      { c with inventory := (getSlotStep f now DEFAULT_TTL_inventory u c.inventory).2.1 } :=
  rfl

/-- `getInventory` unfolded on its `upstreamCalled` projection. -/
theorem getInventory_called (f : Bool) (now : Int) (u : Except String InventoryResponse)
    (c : SiteStateCache) :
    (getInventory f now u c).upstreamCalled =
      (getSlotStep f now DEFAULT_TTL_inventory u c.inventory).2.2 :=
  rfl

/-- `getPrices` unfolded on its `result` projection. -/
theorem getPrices_result (f : Bool) (now : Int) (u : Except String PriceDataPoint)
    (c : SiteStateCache) :
    (getPrices f now u c).result = (getSlotStep f now DEFAULT_TTL_prices u c.prices).1 :=
  rfl

/-- `getPrices` unfolded on its `cache` projection. -/
theorem getPrices_cache (f : Bool) (now : Int) (u : Except String PriceDataPoint)
    (c : SiteStateCache) :
    (getPrices f now u c).cache =
      { c with prices := (getSlotStep f now DEFAULT_TTL_prices u c.prices).2.1 } :=
  rfl

/-- `getPrices` unfolded on its `upstreamCalled` projection. -/
theorem getPrices_called (f : Bool) (now : Int) (u : Except String PriceDataPoint)
    (c : SiteStateCache) :
    (getPrices f now u c).upstreamCalled = (getSlotStep f now DEFAULT_TTL_prices u c.prices).2.2 :=
  rfl

/-- `getMachineStatus` unfolded on its `result` projection. -/
theorem getMachineStatus_result (f : Bool) (now : Int) (u : Except String MachineStatus)
    (c : SiteStateCache) :
    (getMachineStatus f now u c).result =
      (getSlotStep f now DEFAULT_TTL_machineStatus u c.machineStatus).1 :=
  rfl

/-- `getMachineStatus` unfolded on its `cache` projection. -/
theorem getMachineStatus_cache (f : Bool) (now : Int) (u : Except String MachineStatus)
    (c : SiteStateCache) :
    (getMachineStatus f now u c).cache =
      { c with machineStatus := (getSlotStep f now DEFAULT_TTL_machineStatus u c.machineStatus).2.1 } :=
  rfl

/-- `getMachineStatus` unfolded on its `upstreamCalled` projection. -/
theorem getMachineStatus_called (f : Bool) (now : Int) (u : Except String MachineStatus)
    (c : SiteStateCache) :
    (getMachineStatus f now u c).upstreamCalled =
      (getSlotStep f now DEFAULT_TTL_machineStatus u c.machineStatus).2.2 :=
  rfl

end SiteStateService

/-- Claim C1: for every cache kind, when the upstream fetch fails the `get`
call serves the prior entry's data (even an expired one) without raising,
or propagates the upstream cause when no prior entry exists — and in both
failure cases the whole cache is left unchanged. -/
theorem claim_C1 (f : Bool) (now : Int) (msg : String) (c : SiteStateService.SiteStateCache) :
    (∀ e, c.inventory = some e →
      (SiteStateService.getInventory f now (Except.error msg) c).result = Except.ok e.data ∧
      (SiteStateService.getInventory f now (Except.error msg) c).cache = c) ∧
    (c.inventory = none →
      (SiteStateService.getInventory f now (Except.error msg) c).result = Except.error msg ∧
      (SiteStateService.getInventory f now (Except.error msg) c).cache = c) ∧
    (∀ e, c.prices = some e →
      (SiteStateService.getPrices f now (Except.error msg) c).result = Except.ok e.data ∧
      (SiteStateService.getPrices f now (Except.error msg) c).cache = c) ∧
    (c.prices = none →
      (SiteStateService.getPrices f now (Except.error msg) c).result = Except.error msg ∧
      (SiteStateService.getPrices f now (Except.error msg) c).cache = c) ∧
    (∀ e, c.machineStatus = some e →
      (SiteStateService.getMachineStatus f now (Except.error msg) c).result = Except.ok e.data ∧
      (SiteStateService.getMachineStatus f now (Except.error msg) c).cache = c) ∧
    (c.machineStatus = none →
      (SiteStateService.getMachineStatus f now (Except.error msg) c).result = Except.error msg ∧
      (SiteStateService.getMachineStatus f now (Except.error msg) c).cache = c) := by
  refine ⟨fun e he => ?_, fun he => ?_, fun e he => ?_, fun he => ?_, fun e he => ?_,
    fun he => ?_⟩
  · obtain ⟨h1, h2⟩ :=
      SiteStateService.getSlotStep_err_some f now SiteStateService.DEFAULT_TTL_inventory msg e
    rw [SiteStateService.getInventory_result, SiteStateService.getInventory_cache, he]
    exact ⟨h1, by rw [h2, ← he]⟩
  · rw [SiteStateService.getInventory_result, SiteStateService.getInventory_cache, he,
      SiteStateService.getSlotStep_err_none]
    exact ⟨rfl, by rw [← he]⟩
  · obtain ⟨h1, h2⟩ :=
      SiteStateService.getSlotStep_err_some f now SiteStateService.DEFAULT_TTL_prices msg e
    rw [SiteStateService.getPrices_result, SiteStateService.getPrices_cache, he]
    exact ⟨h1, by rw [h2, ← he]⟩
  · rw [SiteStateService.getPrices_result, SiteStateService.getPrices_cache, he,
      SiteStateService.getSlotStep_err_none]
    exact ⟨rfl, by rw [← he]⟩
  · obtain ⟨h1, h2⟩ :=
      SiteStateService.getSlotStep_err_some f now SiteStateService.DEFAULT_TTL_machineStatus msg e
    rw [SiteStateService.getMachineStatus_result, SiteStateService.getMachineStatus_cache, he]
    exact ⟨h1, by rw [h2, ← he]⟩
  · rw [SiteStateService.getMachineStatus_result, SiteStateService.getMachineStatus_cache, he,
      SiteStateService.getSlotStep_err_none]
    exact ⟨rfl, by rw [← he]⟩

/-- Witness for C1: on `sampleCache` (inventory present, prices empty) a
failing upstream serves the cached inventory, while the prices call
propagates the cause; the cache is unchanged. -/
theorem claim_C1_witness :
    (SiteStateService.getInventory false 1000 (Except.error "boom") sampleCache).result =
        Except.ok sampleInventory ∧
    (SiteStateService.getPrices false 1000 (Except.error "boom") sampleCache).result =
        Except.error "boom" ∧
    (SiteStateService.getPrices false 1000 (Except.error "boom") sampleCache).cache =
      sampleCache :=
  ⟨((claim_C1 false 1000 "boom" sampleCache).1
      ⟨sampleInventory, 0, SiteStateService.DEFAULT_TTL_inventory⟩ rfl).1,
    ((claim_C1 false 1000 "boom" sampleCache).2.2.2.1 rfl).1,
    ((claim_C1 false 1000 "boom" sampleCache).2.2.2.1 rfl).2⟩

/-- Claim C2: for every cache kind, an unforced `get` on a valid entry
returns exactly the cached data with no upstream call and all three slots
unchanged; a forced or invalid `get` issues the upstream call and, on
success, replaces only its own slot with a fresh entry (`fetched_at = now`,
`ttl` = the kind's constant), returning the fresh value. -/
theorem claim_C2 (f : Bool) (now : Int) (c : SiteStateService.SiteStateCache)
    (uI : Except String InventoryResponse) (uP : Except String PriceDataPoint)
    (uM : Except String MachineStatus) (vI : InventoryResponse) (vP : PriceDataPoint)
    (vM : MachineStatus) :
    (∀ e, c.inventory = some e → now - e.timestamp < e.ttl →
      SiteStateService.getInventory false now uI c = ⟨Except.ok e.data, c, false⟩) ∧
    ((f = true ∨ SiteStateService.isCacheValid now c.inventory = false) →
      SiteStateService.getInventory f now (Except.ok vI) c =
        ⟨Except.ok vI,
          { c with inventory := some (SiteStateService.createCacheEntry now vI
              SiteStateService.DEFAULT_TTL_inventory) },
          true⟩) ∧
    (∀ e, c.prices = some e → now - e.timestamp < e.ttl →
      SiteStateService.getPrices false now uP c = ⟨Except.ok e.data, c, false⟩) ∧
    ((f = true ∨ SiteStateService.isCacheValid now c.prices = false) →
      SiteStateService.getPrices f now (Except.ok vP) c =
        ⟨Except.ok vP,
          { c with prices := some (SiteStateService.createCacheEntry now vP
              SiteStateService.DEFAULT_TTL_prices) },
          true⟩) ∧
    (∀ e, c.machineStatus = some e → now - e.timestamp < e.ttl →
      SiteStateService.getMachineStatus false now uM c = ⟨Except.ok e.data, c, false⟩) ∧
    ((f = true ∨ SiteStateService.isCacheValid now c.machineStatus = false) →
      SiteStateService.getMachineStatus f now (Except.ok vM) c =
        ⟨Except.ok vM,
          { c with machineStatus := some (SiteStateService.createCacheEntry now vM
              SiteStateService.DEFAULT_TTL_machineStatus) },
          true⟩) := by
  refine ⟨fun e he hv => ?_, fun hor => ?_, fun e he hv => ?_, fun hor => ?_,
    fun e he hv => ?_, fun hor => ?_⟩
  · have hs :=
      SiteStateService.getSlotStep_valid now SiteStateService.DEFAULT_TTL_inventory uI e hv
    simp only [SiteStateService.getInventory, he, hs]
    rw [← he]
  · have hs := SiteStateService.getSlotStep_refresh_ok f now
      SiteStateService.DEFAULT_TTL_inventory vI c.inventory hor
    simp only [SiteStateService.getInventory, hs]
  · have hs :=
      SiteStateService.getSlotStep_valid now SiteStateService.DEFAULT_TTL_prices uP e hv
    simp only [SiteStateService.getPrices, he, hs]
    rw [← he]
  · have hs := SiteStateService.getSlotStep_refresh_ok f now
      SiteStateService.DEFAULT_TTL_prices vP c.prices hor
    simp only [SiteStateService.getPrices, hs]
  · have hs :=
      SiteStateService.getSlotStep_valid now SiteStateService.DEFAULT_TTL_machineStatus uM e hv
    simp only [SiteStateService.getMachineStatus, he, hs]
    rw [← he]
  · have hs := SiteStateService.getSlotStep_refresh_ok f now
      SiteStateService.DEFAULT_TTL_machineStatus vM c.machineStatus hor
    simp only [SiteStateService.getMachineStatus, hs]

/-- Witness for C2: on `sampleCache` at `now = 1000` the inventory entry is
valid and served from cache (even though upstream would fail), while the
empty prices slot triggers a refresh that stores a fresh 5-minute entry. -/
theorem claim_C2_witness :
    SiteStateService.getInventory false 1000 (Except.error "down") sampleCache =
      ⟨Except.ok sampleInventory, sampleCache, false⟩ ∧
    SiteStateService.getPrices false 1000 (Except.ok samplePrice) sampleCache =
      ⟨Except.ok samplePrice,
        { sampleCache with
            prices := some ⟨samplePrice, 1000, SiteStateService.DEFAULT_TTL_prices⟩ },
        true⟩ :=
  ⟨(claim_C2 false 1000 sampleCache (Except.error "down") (Except.ok samplePrice)
        (Except.error "down") sampleInventory samplePrice sampleMachineStatus).1
      ⟨sampleInventory, 0, SiteStateService.DEFAULT_TTL_inventory⟩ rfl (by decide),
    (claim_C2 false 1000 sampleCache (Except.error "down") (Except.ok samplePrice)
        (Except.error "down") sampleInventory samplePrice sampleMachineStatus).2.2.2.1
      (Or.inr rfl)⟩

namespace SiteStateService

/-- `getPrices` never touches the machine-status slot. -/
theorem getPrices_frame_machineStatus (f : Bool) (now : Int) (u : Except String PriceDataPoint)
    (c : SiteStateCache) : (getPrices f now u c).cache.machineStatus = c.machineStatus := rfl

/-- `getPrices` never touches the inventory slot. -/
theorem getPrices_frame_inventory (f : Bool) (now : Int) (u : Except String PriceDataPoint)
    (c : SiteStateCache) : (getPrices f now u c).cache.inventory = c.inventory := rfl

/-- `getMachineStatus` never touches the prices slot. -/
theorem getMachineStatus_frame_prices (f : Bool) (now : Int) (u : Except String MachineStatus)
    (c : SiteStateCache) : (getMachineStatus f now u c).cache.prices = c.prices := rfl

/-- `getMachineStatus` never touches the inventory slot. -/
theorem getMachineStatus_frame_inventory (f : Bool) (now : Int) (u : Except String MachineStatus)
    (c : SiteStateCache) : (getMachineStatus f now u c).cache.inventory = c.inventory := rfl

/-- `getInventory` never touches the prices slot. -/
theorem getInventory_frame_prices (f : Bool) (now : Int) (u : Except String InventoryResponse)
    (c : SiteStateCache) : (getInventory f now u c).cache.prices = c.prices := rfl

/-- `getInventory` never touches the machine-status slot. -/
theorem getInventory_frame_machineStatus (f : Bool) (now : Int)
    (u : Except String InventoryResponse) (c : SiteStateCache) :
    (getInventory f now u c).cache.machineStatus = c.machineStatus := rfl

/-- Every scheduled tick runs: a tick's caught failures are recorded, never
propagated, so the periodic task processes its whole schedule. -/
theorem startPeriodicRefresh_runs_all (ticks : List (Int × TickUpstream)) (c0 : SiteStateCache) :
    (startPeriodicRefresh ticks c0).2.length = ticks.length := by
  induction ticks generalizing c0 with
  | nil => rfl
  | cons t rest ih =>
      obtain ⟨now, u⟩ := t
      unfold startPeriodicRefresh
      dsimp only
      simp [ih]

end SiteStateService

/-- Claim C8: each periodic-refresh tick refreshes exactly the slots whose
entry is currently invalid — a valid slot gets no upstream call and is
left unchanged — and every tick's failure is caught, so the periodic task
processes every scheduled tick. -/
theorem claim_C8 (now : Int) (u : SiteStateService.TickUpstream)
    (c : SiteStateService.SiteStateCache) :
    (SiteStateService.isCacheValid now c.prices = true →
      (SiteStateService.refreshTick now u c).calledPrices = false ∧
      (SiteStateService.refreshTick now u c).cache.prices = c.prices) ∧
    (SiteStateService.isCacheValid now c.prices = false →
      (SiteStateService.refreshTick now u c).calledPrices = true) ∧
    (SiteStateService.isCacheValid now c.machineStatus = true →
      (SiteStateService.refreshTick now u c).calledMachineStatus = false ∧
      (SiteStateService.refreshTick now u c).cache.machineStatus = c.machineStatus) ∧
    (SiteStateService.isCacheValid now c.machineStatus = false →
      (SiteStateService.refreshTick now u c).calledMachineStatus = true) ∧
    (SiteStateService.isCacheValid now c.inventory = true →
      (SiteStateService.refreshTick now u c).calledInventory = false ∧
      (SiteStateService.refreshTick now u c).cache.inventory = c.inventory) ∧
    (SiteStateService.isCacheValid now c.inventory = false →
      (SiteStateService.refreshTick now u c).calledInventory = true) ∧
    (∀ (ticks : List (Int × SiteStateService.TickUpstream))
        (c0 : SiteStateService.SiteStateCache),
      (SiteStateService.startPeriodicRefresh ticks c0).2.length = ticks.length) := by
  refine ⟨fun h => ?_, fun h => ?_, fun h => ?_, fun h => ?_, fun h => ?_, fun h => ?_,
    SiteStateService.startPeriodicRefresh_runs_all⟩
  · unfold SiteStateService.refreshTick
    dsimp only
    rw [h]
    refine ⟨rfl, ?_⟩
    split_ifs <;>
      simp_all [SiteStateService.getPrices_frame_machineStatus,
        SiteStateService.getPrices_frame_inventory,
        SiteStateService.getMachineStatus_frame_prices,
        SiteStateService.getMachineStatus_frame_inventory,
        SiteStateService.getInventory_frame_prices,
        SiteStateService.getInventory_frame_machineStatus]
  · unfold SiteStateService.refreshTick
    dsimp only
    rw [h]
    rfl
  · unfold SiteStateService.refreshTick
    dsimp only
    constructor <;> split_ifs <;>
      simp_all [SiteStateService.getPrices_frame_machineStatus,
        SiteStateService.getPrices_frame_inventory,
        SiteStateService.getMachineStatus_frame_prices,
        SiteStateService.getMachineStatus_frame_inventory,
        SiteStateService.getInventory_frame_prices,
        SiteStateService.getInventory_frame_machineStatus]
  · unfold SiteStateService.refreshTick
    dsimp only
    split_ifs <;>
      simp_all [SiteStateService.getPrices_frame_machineStatus,
        SiteStateService.getPrices_frame_inventory,
        SiteStateService.getMachineStatus_frame_prices,
        SiteStateService.getMachineStatus_frame_inventory,
        SiteStateService.getInventory_frame_prices,
        SiteStateService.getInventory_frame_machineStatus]
  · unfold SiteStateService.refreshTick
    dsimp only
    constructor <;> split_ifs <;>
      simp_all [SiteStateService.getPrices_frame_machineStatus,
        SiteStateService.getPrices_frame_inventory,
        SiteStateService.getMachineStatus_frame_prices,
        SiteStateService.getMachineStatus_frame_inventory,
        SiteStateService.getInventory_frame_prices,
        SiteStateService.getInventory_frame_machineStatus]
  · unfold SiteStateService.refreshTick
    dsimp only
    split_ifs <;>
      simp_all [SiteStateService.getPrices_frame_machineStatus,
        SiteStateService.getPrices_frame_inventory,
        SiteStateService.getMachineStatus_frame_prices,
        SiteStateService.getMachineStatus_frame_inventory,
        SiteStateService.getInventory_frame_prices,
        SiteStateService.getInventory_frame_machineStatus]

/-- Witness for C8: at `now = 1000` on `sampleCache`, the empty prices slot
triggers a refresh while the valid inventory slot is skipped and unchanged. -/
theorem claim_C8_witness :
    (SiteStateService.refreshTick 1000 sampleTickUpstream sampleCache).calledPrices = true ∧
    (SiteStateService.refreshTick 1000 sampleTickUpstream sampleCache).calledInventory = false ∧
    (SiteStateService.refreshTick 1000 sampleTickUpstream sampleCache).cache.inventory =
      sampleCache.inventory :=
  ⟨(claim_C8 1000 sampleTickUpstream sampleCache).2.1 rfl,
    ((claim_C8 1000 sampleTickUpstream sampleCache).2.2.2.2.1 (by decide)).1,
    ((claim_C8 1000 sampleTickUpstream sampleCache).2.2.2.2.1 (by decide)).2⟩

/-- Claim C7: an allocation whose projected power draw exceeds the site
limit is rejected by local validation — carrying the overage in watts —
before any upstream PUT is issued. -/
theorem claim_C7 (dateToISO : String → String) (inv : InventoryResponse)
    (sc : MaraApiService.SiteConfig) (alloc : MaraApiService.AllocateMachinesRequest)
    (put : Except String MaraApiService.MachineAllocation)
    (h : MaraApiService.allocTotalPower alloc inv > sc.power) :
    MaraApiService.updateMachineAllocation true dateToISO (Except.ok inv) (some sc) alloc put =
      (MaraApiService.UpdateOutcome.rejected
          (MaraApiService.ValidationError.powerExceeded
            (MaraApiService.allocTotalPower alloc inv) sc.power
            (MaraApiService.allocTotalPower alloc inv - sc.power)),
        false) := by
  unfold MaraApiService.updateMachineAllocation MaraApiService.validateMachineAllocation
    MaraApiService.validateTry MaraApiService.mentionsPowerAllocation
  simp [h]

/-- Witness for C7: 400 air miners on the sample inventory project
1,333,200 W against the 1 MW sample limit and are rejected locally. -/
theorem claim_C7_witness :
    MaraApiService.updateMachineAllocation true id (Except.ok sampleInventory)
        (some sampleSiteConfig) sampleAllocOver (Except.ok sampleAllocation) =
      (MaraApiService.UpdateOutcome.rejected
          (MaraApiService.ValidationError.powerExceeded
            (MaraApiService.allocTotalPower sampleAllocOver sampleInventory)
            sampleSiteConfig.power
            (MaraApiService.allocTotalPower sampleAllocOver sampleInventory -
              sampleSiteConfig.power)),
        false) :=
  claim_C7 id sampleInventory sampleSiteConfig sampleAllocOver (Except.ok sampleAllocation)
    (by norm_num [MaraApiService.allocTotalPower, sampleAllocOver, sampleInventory,
      sampleSiteConfig])

/-- Claim C9: the power-limit validation is best-effort — a validation
failure that does not mention a power-allocation violation (a failed
inventory fetch, a missing site config) is swallowed and the PUT is issued
anyway; only power-allocation errors abort the submission. -/
theorem claim_C9 (dateToISO : String → String) (msg : String)
    (scOpt : Option MaraApiService.SiteConfig) (inv : InventoryResponse)
    (invRes : Except String InventoryResponse) (alloc : MaraApiService.AllocateMachinesRequest)
    (put : Except String MaraApiService.MachineAllocation) :
    (strContains msg "Power allocation" = false →
      MaraApiService.updateMachineAllocation true dateToISO (Except.error msg) scOpt alloc put =
        (MaraApiService.UpdateOutcome.putResult (MaraApiService.putOutcome dateToISO put),
          true)) ∧
    (MaraApiService.updateMachineAllocation true dateToISO (Except.ok inv) none alloc put =
      (MaraApiService.UpdateOutcome.putResult (MaraApiService.putOutcome dateToISO put),
        true)) ∧
    (∀ e, (MaraApiService.updateMachineAllocation true dateToISO invRes scOpt alloc put).1 =
        MaraApiService.UpdateOutcome.rejected e →
      MaraApiService.mentionsPowerAllocation e = true) := by
  refine ⟨fun h => ?_, ?_, fun e he => ?_⟩
  · unfold MaraApiService.updateMachineAllocation MaraApiService.validateMachineAllocation
      MaraApiService.validateTry MaraApiService.mentionsPowerAllocation
    simp [h]
  · rfl
  · unfold MaraApiService.updateMachineAllocation at he
    cases hv : MaraApiService.validateMachineAllocation invRes scOpt alloc with
    | none =>
        rw [hv] at he
        exact absurd he (by simp)
    | some e2 =>
        rw [hv] at he
        have he2 : e2 = e := MaraApiService.UpdateOutcome.rejected.inj he
        rw [← he2]
        unfold MaraApiService.validateMachineAllocation at hv
        cases ht : MaraApiService.validateTry invRes scOpt alloc with
        | ok u => rw [ht] at hv; exact absurd hv (by simp)
        | error e3 =>
            rw [ht] at hv
            dsimp only at hv
            by_cases hm : MaraApiService.mentionsPowerAllocation e3 = true
            · rw [if_pos hm] at hv
              have h3 : e3 = e2 := Option.some.inj hv
              rw [← h3]
              exact hm
            · rw [if_neg hm] at hv
              exact absurd hv (by simp)

/-- Witness for C9: a non-power validation failure (inventory fetch died
with a network error) is swallowed and the PUT still goes out. -/
theorem claim_C9_witness :
    MaraApiService.updateMachineAllocation true id (Except.error "network timeout")
        (some sampleSiteConfig) sampleAllocOver (Except.ok sampleAllocation) =
      (MaraApiService.UpdateOutcome.putResult
          (MaraApiService.putOutcome id (Except.ok sampleAllocation)),
        true) :=
  (claim_C9 id "network timeout" (some sampleSiteConfig) sampleInventory
      (Except.error "network timeout") sampleAllocOver (Except.ok sampleAllocation)).1
    (by decide)

/-- Claim C10: `MaraApiService.getPrices` returns the first element of the
upstream price array with its timestamp normalized (Z suffix ensured, then
`Date`-rendered), fails with `No price data available from API` on an empty
or missing array, and never returns any element other than the first. -/
theorem claim_C10 (dateToISO : String → String) (p : PriceDataPoint)
    (rest : List PriceDataPoint) :
    MaraApiService.getPrices true dateToISO (Except.ok (some (p :: rest))) =
        Except.ok (MaraApiService.normalizePriceDataPoint dateToISO p) ∧
    (MaraApiService.normalizePriceDataPoint dateToISO p).timestamp =
        dateToISO (if strEndsWith p.timestamp 'Z' then p.timestamp else p.timestamp ++ "Z") ∧
    MaraApiService.getPrices true dateToISO (Except.ok (some [])) =
        Except.error ("Get prices failed: " ++ "No price data available from API") ∧
    MaraApiService.getPrices true dateToISO (Except.ok none) =
        Except.error ("Get prices failed: " ++ "No price data available from API") ∧
    (∀ (response : Except String (Option (List PriceDataPoint))) (q : PriceDataPoint),
      MaraApiService.getPrices true dateToISO response = Except.ok q →
      ∃ p2 rest2, response = Except.ok (some (p2 :: rest2)) ∧
        q = MaraApiService.normalizePriceDataPoint dateToISO p2) := by
  refine ⟨rfl, rfl, rfl, rfl, fun response q hq => ?_⟩
  unfold MaraApiService.getPrices at hq
  match response with
  | Except.error m => exact absurd hq (by simp)
  | Except.ok none => exact absurd hq (by simp)
  | Except.ok (some []) => exact absurd hq (by simp)
  | Except.ok (some (p2 :: rest2)) =>
      exact ⟨p2, rest2, rfl, (Except.ok.inj hq).symm⟩

/-- Witness for C10: a singleton response yields its (first) element. -/
theorem claim_C10_witness :
    ∃ p2 rest2,
      (Except.ok (some [samplePrice]) : Except String (Option (List PriceDataPoint))) =
        Except.ok (some (p2 :: rest2)) ∧
      MaraApiService.normalizePriceDataPoint id samplePrice =
        MaraApiService.normalizePriceDataPoint id p2 :=
  (claim_C10 id samplePrice []).2.2.2.2 (Except.ok (some [samplePrice]))
    (MaraApiService.normalizePriceDataPoint id samplePrice) rfl

end VertexArbiter
